import Mathlib

/- Shallow embedding of src/lib/crevio.ts.

The file under verification is a thin wrapper around the Crevio SDK:
createCrevioClient builds a client handle from two process-environment
values with no validation, fetchProducts calls the remote list
operation and substitutes an empty array for a null result, and
fetchProduct calls the remote get operation for one identifier.  Both
accessors catch any error thrown inside their try block, log it with
console.error, and re-throw a generic Error.

The SDK's remote behavior is external to the repository, so the two
remote calls are parameters of the embedded accessors: a remote call
either throws (modelled as Except.error carrying the thrown error) or
resolves with a value that may be null (modelled as an Option).  The
wrapper's own logic - client construction, null substitution, error
rewrapping, logging - is embedded directly from the source. -/

/-- An error thrown inside an accessor's try block (by the SDK or the
runtime); only its message matters to the wrapper, which logs it. -/
structure SdkError where
  message : String
deriving Repr, DecidableEq

/-- The slice of process.env read by createCrevioClient: the values of
CREVIO_ACCOUNT_API_KEY and CREVIO_PROJECT_URL, each possibly absent. -/
structure ProcessEnv where
  CREVIO_ACCOUNT_API_KEY : Option String
  CREVIO_PROJECT_URL : Option String
deriving Repr, DecidableEq

/-- The client handle: new Crevio stores the two configuration values
it is given, unchecked. -/
structure Crevio where
  apiKeyAuth : Option String
  serverURL : Option String
deriving Repr, DecidableEq

/-- createCrevioClient from the source: reads the two environment
values at call time and constructs the handle with no presence check. -/
def createCrevioClient (env : ProcessEnv) : Crevio :=
  ⟨env.CREVIO_ACCOUNT_API_KEY, env.CREVIO_PROJECT_URL⟩

/-- The generic error an accessor throws after catching: new Error msg. -/
structure AppError where
  message : String
deriving Repr, DecidableEq

/-- One console.error record: the fixed tag plus the caught error. -/
structure LogEntry where
  tag : String
  err : SdkError
deriving Repr, DecidableEq

/-- Outcome of one accessor call: the settled promise (resolved value
or thrown AppError) paired with everything written to the log. -/
abbrev FetchResult (A : Type) := Except AppError A × List LogEntry

/-- Behavior of the remote call crevio.products.list(): given the
client handle it either throws or resolves, possibly with null. -/
abbrev RemoteList (P : Type) := Crevio → Except SdkError (Option (List P))

/-- Behavior of the remote call crevio.products.get for one identifier:
it either throws or resolves, possibly with null. -/
abbrev RemoteGet (P : Type) := Crevio → String → Except SdkError (Option P)

/-- fetchProducts from the source: build a fresh client from the
environment, await the remote list call, return result-or-empty-array;
on any throw, log the error and throw the fixed generic error. -/
def fetchProducts {P : Type} (list : RemoteList P) (env : ProcessEnv) :
    FetchResult (List P) :=
  match list (createCrevioClient env) with
  | .ok result => (.ok (result.getD []), [])
  | .error e =>
      (.error ⟨"Failed to load products"⟩, [⟨"Error fetching products:", e⟩])

/-- fetchProduct from the source: build a fresh client from the
environment, await the remote get call with the identifier passed
through unchanged, return its result as-is; on any throw, log the
error and throw a generic error embedding the identifier. -/
def fetchProduct {P : Type} (get : RemoteGet P) (env : ProcessEnv)
    (prefixId : String) : FetchResult (Option P) :=
  match get (createCrevioClient env) prefixId with
  | .ok result => (.ok result, [])
  | .error e =>
      (.error ⟨"Failed to load product: " ++ prefixId⟩,
       [⟨"Error fetching product:", e⟩])

/-- One invocation of the module's public surface. -/
inductive ApiCall where
  | listCall : ApiCall
  | getCall (prefixId : String) : ApiCall
deriving Repr, DecidableEq

/-- Result of one invocation, tagged by which accessor ran. -/
inductive CallResult (P : Type) where
  | listResult (r : FetchResult (List P)) : CallResult P
  | getResult (r : FetchResult (Option P)) : CallResult P

/-- Run one call against its call-time environment. -/
def runCall {P : Type} (list : RemoteList P) (get : RemoteGet P)
    (env : ProcessEnv) : ApiCall → CallResult P
  | .listCall => .listResult (fetchProducts list env)
  | .getCall prefixId => .getResult (fetchProduct get env prefixId)

/-- Run a sequence of calls, each against the environment current at
its own call time; no state is threaded from one call to the next. -/
def runCalls {P : Type} (list : RemoteList P) (get : RemoteGet P)
    (calls : List (ProcessEnv × ApiCall)) : List (CallResult P) :=
  calls.map (fun c => runCall list get c.1 c.2)

/-- C1: if the remote list call resolves with a null result, fetchProducts
resolves with the empty array, throwing nothing and logging nothing. -/
theorem fetchProducts_null_to_empty {P : Type} (list : RemoteList P)
    (env : ProcessEnv) (h : list (createCrevioClient env) = .ok none) :
    fetchProducts list env = (.ok [], []) := by
  simp [fetchProducts, h]

/-- Witness for C1: a remote list behavior that resolves with null. -/
theorem fetchProducts_null_to_empty_witness :
    (fun _ : Crevio => (Except.ok none : Except SdkError (Option (List String))))
        (createCrevioClient ⟨some "key", some "url"⟩) = .ok none ∧
    fetchProducts (fun _ => Except.ok none) (⟨some "key", some "url"⟩ : ProcessEnv)
      = (Except.ok ([] : List String), []) :=
  ⟨rfl, fetchProducts_null_to_empty _ _ rfl⟩

/-- C2: whenever the try block of fetchProducts throws, the accessor throws
an error whose message is exactly "Failed to load products", writes the
original error only to the log, and the thrown error is identical for every
underlying error, so no detail of the cause appears in its message. -/
theorem fetchProducts_failure {P : Type} (list list₂ : RemoteList P)
    (env : ProcessEnv) (e e₂ : SdkError)
    (h : list (createCrevioClient env) = .error e)
    (h₂ : list₂ (createCrevioClient env) = .error e₂) :
    fetchProducts list env =
      (.error ⟨"Failed to load products"⟩, [⟨"Error fetching products:", e⟩]) ∧
    (fetchProducts list₂ env).1 = (fetchProducts list env).1 := by
  constructor
  · simp [fetchProducts, h]
  · simp [fetchProducts, h, h₂]

/-- Witness for C2: two distinct network errors produce the same fixed
thrown error, and the causes land only in the log. -/
theorem fetchProducts_failure_witness :
    (fun _ : Crevio =>
        (Except.error ⟨"ECONNREFUSED 10.0.0.1"⟩ :
          Except SdkError (Option (List String))))
        (createCrevioClient ⟨some "key", some "url"⟩) =
      .error ⟨"ECONNREFUSED 10.0.0.1"⟩ ∧
    (fun _ : Crevio =>
        (Except.error ⟨"401 unauthorized"⟩ :
          Except SdkError (Option (List String))))
        (createCrevioClient ⟨some "key", some "url"⟩) =
      .error ⟨"401 unauthorized"⟩ ∧
    (fetchProducts (fun _ => Except.error ⟨"ECONNREFUSED 10.0.0.1"⟩)
        (⟨some "key", some "url"⟩ : ProcessEnv) =
      ((Except.error ⟨"Failed to load products"⟩ :
          Except AppError (List String)),
        [⟨"Error fetching products:", ⟨"ECONNREFUSED 10.0.0.1"⟩⟩]) ∧
    (fetchProducts (P := String) (fun _ => Except.error ⟨"401 unauthorized"⟩)
        (⟨some "key", some "url"⟩ : ProcessEnv)).1 =
      (fetchProducts (fun _ => Except.error ⟨"ECONNREFUSED 10.0.0.1"⟩)
        (⟨some "key", some "url"⟩ : ProcessEnv)).1) :=
  ⟨rfl, rfl, fetchProducts_failure _ _ _ _ _ rfl rfl⟩

/-- C3: whenever the try block of fetchProduct throws for identifier id,
the accessor throws an error whose message is exactly the concatenation of
"Failed to load product: " and id, writes the original error only to the
log, and the thrown error is identical for every underlying error. -/
theorem fetchProduct_failure {P : Type} (get get₂ : RemoteGet P)
    (env : ProcessEnv) (prefixId : String) (e e₂ : SdkError)
    (h : get (createCrevioClient env) prefixId = .error e)
    (h₂ : get₂ (createCrevioClient env) prefixId = .error e₂) :
    fetchProduct get env prefixId =
      (.error ⟨"Failed to load product: " ++ prefixId⟩,
       [⟨"Error fetching product:", e⟩]) ∧
    (fetchProduct get₂ env prefixId).1 = (fetchProduct get env prefixId).1 := by
  constructor
  · simp [fetchProduct, h]
  · simp [fetchProduct, h, h₂]

/-- Witness for C3: a network error on the get call for "prod_123" yields
the message "Failed to load product: prod_123". -/
theorem fetchProduct_failure_witness :
    (fun (_ : Crevio) (_ : String) =>
        (Except.error ⟨"socket hang up"⟩ : Except SdkError (Option String)))
        (createCrevioClient ⟨some "key", some "url"⟩) "prod_123" =
      .error ⟨"socket hang up"⟩ ∧
    (fun (_ : Crevio) (_ : String) =>
        (Except.error ⟨"dns failure"⟩ : Except SdkError (Option String)))
        (createCrevioClient ⟨some "key", some "url"⟩) "prod_123" =
      .error ⟨"dns failure"⟩ ∧
    (fetchProduct (fun _ _ => Except.error ⟨"socket hang up"⟩)
        (⟨some "key", some "url"⟩ : ProcessEnv) "prod_123" =
      ((Except.error ⟨"Failed to load product: prod_123"⟩ :
          Except AppError (Option String)),
        [⟨"Error fetching product:", ⟨"socket hang up"⟩⟩]) ∧
    (fetchProduct (P := String) (fun _ _ => Except.error ⟨"dns failure"⟩)
        (⟨some "key", some "url"⟩ : ProcessEnv) "prod_123").1 =
      (fetchProduct (fun _ _ => Except.error ⟨"socket hang up"⟩)
        (⟨some "key", some "url"⟩ : ProcessEnv) "prod_123").1) :=
  ⟨rfl, rfl, fetchProduct_failure _ _ _ _ _ _ rfl rfl⟩

/-- C4: for a non-empty identifier, a successful remote get call makes
fetchProduct resolve with exactly the record the remote call supplied,
and the outcome depends only on the remote behavior at that very
identifier, so the identifier is forwarded as-is with no validation or
transformation. -/
theorem fetchProduct_success {P : Type} (get get₂ : RemoteGet P)
    (env : ProcessEnv) (prefixId : String) (p : P)
    (_hne : prefixId ≠ "")
    (h : get (createCrevioClient env) prefixId = .ok (some p))
    (hagree : get₂ (createCrevioClient env) prefixId =
      get (createCrevioClient env) prefixId) :
    fetchProduct get env prefixId = (.ok (some p), []) ∧
    fetchProduct get₂ env prefixId = fetchProduct get env prefixId := by
  constructor
  · simp [fetchProduct, h]
  · simp [fetchProduct, hagree]

/-- Witness for C4: a remote behavior answering for "prod_123", and a
second behavior that agrees at "prod_123" but fails everywhere else,
yield the same resolved record. -/
theorem fetchProduct_success_witness :
    ("prod_123" : String) ≠ "" ∧
    (fun (_ : Crevio) (_ : String) =>
        (Except.ok (some "record") : Except SdkError (Option String)))
        (createCrevioClient ⟨some "key", some "url"⟩) "prod_123" =
      .ok (some "record") ∧
    (fun (_ : Crevio) (s : String) =>
        if s = "prod_123" then (Except.ok (some "record") :
            Except SdkError (Option String))
          else Except.error ⟨"not found"⟩)
        (createCrevioClient ⟨some "key", some "url"⟩) "prod_123" =
      (fun (_ : Crevio) (_ : String) =>
        (Except.ok (some "record") : Except SdkError (Option String)))
        (createCrevioClient ⟨some "key", some "url"⟩) "prod_123" ∧
    (fetchProduct (fun _ _ => Except.ok (some "record"))
        (⟨some "key", some "url"⟩ : ProcessEnv) "prod_123" =
      (Except.ok (some "record"), []) ∧
    fetchProduct
        (fun _ s => if s = "prod_123" then Except.ok (some "record")
          else Except.error ⟨"not found"⟩)
        (⟨some "key", some "url"⟩ : ProcessEnv) "prod_123" =
      fetchProduct (P := String) (fun _ _ => Except.ok (some "record"))
        (⟨some "key", some "url"⟩ : ProcessEnv) "prod_123") :=
  ⟨by decide, rfl, rfl,
   fetchProduct_success _ _ _ _ _ (by decide) rfl rfl⟩

/-- C5: when the remote list call resolves with an actual (non-null)
sequence, fetchProducts resolves with that same sequence, elements and
order unchanged, and never a null. -/
theorem fetchProducts_success {P : Type} (list : RemoteList P)
    (env : ProcessEnv) (ps : List P)
    (h : list (createCrevioClient env) = .ok (some ps)) :
    fetchProducts list env = (.ok ps, []) := by
  simp [fetchProducts, h]

/-- Witness for C5: a remote result of two records resolves to the same
two-element sequence in the same order. -/
theorem fetchProducts_success_witness :
    (fun _ : Crevio =>
        (Except.ok (some ["prod_1", "prod_2"]) :
          Except SdkError (Option (List String))))
        (createCrevioClient ⟨some "key", some "url"⟩) =
      .ok (some ["prod_1", "prod_2"]) ∧
    fetchProducts (fun _ => Except.ok (some ["prod_1", "prod_2"]))
        (⟨some "key", some "url"⟩ : ProcessEnv) =
      (Except.ok ["prod_1", "prod_2"], []) :=
  ⟨rfl, fetchProducts_success _ _ _ rfl⟩

/-- C6: createCrevioClient performs no validation: for every environment,
including those where either or both values are absent, the handle is
constructed (the function is total) and carries exactly the two
environment values read at call time. -/
theorem createCrevioClient_no_validation :
    ∀ env : ProcessEnv,
      (createCrevioClient env).apiKeyAuth = env.CREVIO_ACCOUNT_API_KEY ∧
      (createCrevioClient env).serverURL = env.CREVIO_PROJECT_URL :=
  fun _ => ⟨rfl, rfl⟩

/-- C7: running any sequence of calls, each with its own call-time
environment, yields at every position exactly the result of running that
call alone: no state created by one invocation reaches any other, since
each invocation builds its client handle afresh from its own
environment. -/
theorem runCalls_independent {P : Type} (list : RemoteList P)
    (get : RemoteGet P) (pre post : List (ProcessEnv × ApiCall))
    (env : ProcessEnv) (c : ApiCall) :
    runCalls list get (pre ++ (env, c) :: post) =
      runCalls list get pre ++
        runCall list get env c :: runCalls list get post := by
  simp [runCalls]

/-- C8: if the remote get call resolves with a null result rather than
throwing, fetchProduct resolves with that null as-is: no default is
substituted and no error is raised. -/
theorem fetchProduct_null_passthrough {P : Type} (get : RemoteGet P)
    (env : ProcessEnv) (prefixId : String)
    (h : get (createCrevioClient env) prefixId = .ok none) :
    fetchProduct get env prefixId = (.ok none, []) := by
  simp [fetchProduct, h]

/-- Witness for C8: a remote get behavior resolving with null. -/
theorem fetchProduct_null_passthrough_witness :
    (fun (_ : Crevio) (_ : String) =>
        (Except.ok none : Except SdkError (Option String)))
        (createCrevioClient ⟨some "key", some "url"⟩) "prod_123" = .ok none ∧
    fetchProduct (fun _ _ => Except.ok none)
        (⟨some "key", some "url"⟩ : ProcessEnv) "prod_123" =
      ((Except.ok none : Except AppError (Option String)), []) :=
  ⟨rfl, fetchProduct_null_passthrough _ _ _ rfl⟩

/-- C9: the empty identifier is accepted and forwarded unchanged: a
successful remote get call for "" resolves as usual, and a failing one
rejects with message "Failed to load product: " (the template applied
to the empty string). -/
theorem fetchProduct_empty_id {P : Type} (getOk getErr : RemoteGet P)
    (env : ProcessEnv) (r : Option P) (e : SdkError)
    (hok : getOk (createCrevioClient env) "" = .ok r)
    (herr : getErr (createCrevioClient env) "" = .error e) :
    fetchProduct getOk env "" = (.ok r, []) ∧
    fetchProduct getErr env "" =
      (.error ⟨"Failed to load product: "⟩, [⟨"Error fetching product:", e⟩]) := by
  constructor
  · simp [fetchProduct, hok]
  · simp [fetchProduct, herr]

/-- Witness for C9: the empty identifier, one succeeding and one failing
remote behavior. -/
theorem fetchProduct_empty_id_witness :
    (fun (_ : Crevio) (_ : String) =>
        (Except.ok (some "record") : Except SdkError (Option String)))
        (createCrevioClient ⟨some "key", some "url"⟩) "" = .ok (some "record") ∧
    (fun (_ : Crevio) (_ : String) =>
        (Except.error ⟨"boom"⟩ : Except SdkError (Option String)))
        (createCrevioClient ⟨some "key", some "url"⟩) "" = .error ⟨"boom"⟩ ∧
    (fetchProduct (fun _ _ => Except.ok (some "record"))
        (⟨some "key", some "url"⟩ : ProcessEnv) "" =
      (Except.ok (some "record"), []) ∧
    fetchProduct (P := String) (fun _ _ => Except.error ⟨"boom"⟩)
        (⟨some "key", some "url"⟩ : ProcessEnv) "" =
      (Except.error ⟨"Failed to load product: "⟩,
        [⟨"Error fetching product:", ⟨"boom"⟩⟩])) :=
  ⟨rfl, rfl, fetchProduct_empty_id _ _ _ _ _ rfl rfl⟩

/-- C10: both accessors are deterministic in their inputs: two runs with
the same environment whose remote behaviors give identical answers at the
queried point produce identical outcomes, resolved value, thrown message
and log alike. -/
theorem crevio_deterministic {P : Type} (list₁ list₂ : RemoteList P)
    (get₁ get₂ : RemoteGet P) (env : ProcessEnv) (prefixId : String)
    (hl : list₁ (createCrevioClient env) = list₂ (createCrevioClient env))
    (hg : get₁ (createCrevioClient env) prefixId =
      get₂ (createCrevioClient env) prefixId) :
    fetchProducts list₁ env = fetchProducts list₂ env ∧
    fetchProduct get₁ env prefixId = fetchProduct get₂ env prefixId := by
  constructor
  · simp [fetchProducts, hl]
  · simp [fetchProduct, hg]

/-- Witness for C10: two syntactically different remote behaviors that
answer identically at the queried point give identical outcomes. -/
theorem crevio_deterministic_witness :
    (fun _ : Crevio =>
        (Except.ok (some ["prod_1"]) : Except SdkError (Option (List String))))
        (createCrevioClient ⟨some "key", some "url"⟩) =
      (fun c : Crevio =>
        if c.apiKeyAuth = some "key" then Except.ok (some ["prod_1"])
          else Except.error ⟨"bad key"⟩)
        (createCrevioClient ⟨some "key", some "url"⟩) ∧
    (fun (_ : Crevio) (_ : String) =>
        (Except.ok (some "record") : Except SdkError (Option String)))
        (createCrevioClient ⟨some "key", some "url"⟩) "prod_1" =
      (fun (_ : Crevio) (s : String) =>
        if s = "prod_1" then Except.ok (some "record")
          else Except.error ⟨"not found"⟩)
        (createCrevioClient ⟨some "key", some "url"⟩) "prod_1" ∧
    (fetchProducts (fun _ => Except.ok (some ["prod_1"]))
        (⟨some "key", some "url"⟩ : ProcessEnv) =
      fetchProducts (P := String)
        (fun c => if c.apiKeyAuth = some "key" then Except.ok (some ["prod_1"])
          else Except.error ⟨"bad key"⟩)
        (⟨some "key", some "url"⟩ : ProcessEnv) ∧
    fetchProduct (fun _ _ => Except.ok (some "record"))
        (⟨some "key", some "url"⟩ : ProcessEnv) "prod_1" =
      fetchProduct (P := String)
        (fun _ s => if s = "prod_1" then Except.ok (some "record")
          else Except.error ⟨"not found"⟩)
        (⟨some "key", some "url"⟩ : ProcessEnv) "prod_1") :=
  ⟨rfl, rfl,
   crevio_deterministic _ _ _ _ _ _ rfl rfl⟩
